import Mathlib

/-!
Verification development for the RAB repository (Java toolchain
downloader/installer).  The Python sources under src/ are shallowly embedded:
pure string manipulation becomes Lean functions on String and List Char,
effectful calls (network, filesystem, subprocess, clock) become explicit
parameters holding the outcome of the effect, and Python exceptions become
Except / Option results.  Comments cite the source file and line ranges each
definition embeds.
-/

set_option maxRecDepth 20000

/-! ## Python string primitives

Python's str.split(sep), str.strip(), str.lower(), the in operator, str.rsplit
and re helpers, modelled on the underlying character list.  A Lean String in
this toolchain is a structure wrapping a List Char, so these are faithful,
executable models of the CPython semantics on ASCII data (the repository only
ever handles ASCII file names, URLs and messages).
-/

/-- Python s.split(c) for a single-character separator: keeps empty pieces,
never returns an empty list. -/
def splitCharList (c : Char) : List Char → List (List Char)
  | [] => [[]]
  | x :: xs =>
    if x = c then [] :: splitCharList c xs
    else
      match splitCharList c xs with
      | [] => [[x]]
      | h :: t => (x :: h) :: t

def pySplit (c : Char) (s : String) : List String :=
  (splitCharList c s.data).map (fun l => String.mk l)

/-- Python s.split(sep, 1) for a single-character separator: the first
occurrence, if any. -/
def splitFirstList (c : Char) : List Char → Option (List Char × List Char)
  | [] => none
  | x :: xs =>
    if x = c then some ([], xs)
    else (splitFirstList c xs).map (fun pr => (x :: pr.1, pr.2))

/-- First occurrence of a (non-empty) substring separator: the piece before it
and everything after it. -/
def splitFirstSub (sep : List Char) : List Char → Option (List Char × List Char)
  | [] => none
  | x :: xs =>
    if sep.isPrefixOf (x :: xs) then some ([], (x :: xs).drop sep.length)
    else (splitFirstSub sep xs).map (fun pr => (x :: pr.1, pr.2))

/-- Python s.rsplit(c, 1): split at the last occurrence of c, if any. -/
def rsplitOnceList (c : Char) : List Char → Option (List Char × List Char)
  | [] => none
  | x :: xs =>
    match rsplitOnceList c xs with
    | some (a, b) => some (x :: a, b)
    | none => if x = c then some ([], xs) else none

/-- s.rsplit(c, 1)[0] -/
def rsplitHead (c : Char) (s : String) : String :=
  match rsplitOnceList c s.data with
  | some (a, _) => String.mk a
  | none => s

/-- s.rsplit(c, 1)[-1] -/
def rsplitLast (c : Char) (s : String) : String :=
  match rsplitOnceList c s.data with
  | some (_, b) => String.mk b
  | none => s

/-- Python whitespace as used by str.strip(). -/
def isPySpace (c : Char) : Bool :=
  c = ' ' || c = '\t' || c = '\n' || c = '\r' || c = '\x0B' || c = '\x0C'

def pyStrip (s : String) : String :=
  String.mk (((s.data.dropWhile isPySpace).reverse.dropWhile isPySpace).reverse)

/-- ASCII lower-casing, as str.lower() acts on the data in this repository. -/
def lowerChar (c : Char) : Char :=
  if 'A' ≤ c ∧ c ≤ 'Z' then Char.ofNat (c.toNat + 32) else c

def lowerStr (s : String) : String :=
  String.mk (s.data.map lowerChar)

/-- Bool test for sub occurring inside l (Python's in operator on str). -/
def listContainsSub (sub : List Char) : List Char → Bool
  | [] => sub.isEmpty
  | x :: xs => sub.isPrefixOf (x :: xs) || listContainsSub sub xs

def pyContains (s sub : String) : Bool :=
  listContainsSub sub.data s.data

def strStartsWithCh (c : Char) (s : String) : Bool :=
  match s.data with
  | [] => false
  | x :: _ => x == c

def strEndsWithCh (c : Char) (s : String) : Bool :=
  match s.data.getLast? with
  | none => false
  | some x => x == c

/-- Python truthiness of an optional string: None and the empty string are
falsy. -/
def pyTruthy : Option String → Bool
  | none => false
  | some s => !s.data.isEmpty

/-- Python str() applied to an Optional[str]. -/
def pyStr : Option String → String
  | some s => s
  | none => "None"

/-- A single apostrophe, used in Python repr of strings inside error text. -/
def pySQuote : String := String.mk [Char.ofNat 39]

/-- Python dict lookup on insertion-ordered pairs. -/
def dictGet {α : Type} (d : List (String × α)) (k : String) : Option α :=
  (d.find? (fun p => p.1 == k)).map (fun p => p.2)

def dictHasKey {α : Type} (d : List (String × α)) (k : String) : Bool :=
  d.any (fun p => p.1 == k)

/-- Python dict assignment d[k] = v (overwrite in place, else append). -/
def dictSet {α : Type} : List (String × α) → String → α → List (String × α)
  | [], k, v => [(k, v)]
  | (k0, v0) :: rest, k, v =>
    if k0 == k then (k, v) :: rest else (k0, v0) :: dictSet rest k v

def hexVal (c : Char) : Nat :=
  if c.isDigit then c.toNat - 48
  else if 'a' ≤ c ∧ c ≤ 'f' then c.toNat - 87
  else c.toNat - 55

def isHexDigitB (c : Char) : Bool :=
  c.isDigit || ('a' ≤ c && c ≤ 'f') || ('A' ≤ c && c ≤ 'F')

/-- urllib.parse.unquote restricted to single-byte percent escapes; the
repository never feeds it multi-byte UTF-8 escapes. Invalid escapes are kept
verbatim, as in CPython. -/
def unquoteList : List Char → List Char
  | [] => []
  | '%' :: a :: b :: rest =>
    if isHexDigitB a && isHexDigitB b then
      Char.ofNat (16 * hexVal a + hexVal b) :: unquoteList rest
    else '%' :: unquoteList (a :: b :: rest)
  | c :: rest => c :: unquoteList rest

def unquote (s : String) : String :=
  String.mk (unquoteList s.data)

def natOfDigits (l : List Char) : Nat :=
  l.foldl (fun a c => 10 * a + (c.toNat - 48)) 0

/-- Python int(s): optional surrounding whitespace, optional sign, all digits;
anything else raises ValueError (modelled as none). -/
def pyInt (s : String) : Option Int :=
  match (pyStrip s).data with
  | [] => none
  | c :: rest =>
    if c = '-' then
      if rest ≠ [] ∧ rest.all Char.isDigit then some (-(natOfDigits rest : Int)) else none
    else if c = '+' then
      if rest ≠ [] ∧ rest.all Char.isDigit then some (natOfDigits rest : Int) else none
    else
      if (c :: rest).all Char.isDigit then some (natOfDigits (c :: rest) : Int) else none

/-! ## urllib.parse.urlparse (the parts the repository reads) -/

structure UrlParts where
  scheme : String
  netloc : String
  path : String
  query : String
  fragment : String
deriving DecidableEq, Repr

def isSchemeChar (c : Char) : Bool :=
  c.isAlphanum || c = '+' || c = '-' || c = '.'

/-- Simplified urlsplit: scheme before the first colon when well formed, then
an optional //netloc, the path up to a question mark, the query after it, with
the fragment stripped first.  Faithful on the http(s) URLs this program
handles. -/
def urlparse (url : String) : UrlParts :=
  let (beforeFrag, fragment) :=
    match splitFirstList '#' url.data with
    | some (a, b) => (a, String.mk b)
    | none => (url.data, "")
  let (scheme, rest) :=
    match splitFirstList ':' beforeFrag with
    | some (pre, post) =>
      if pre ≠ [] ∧ pre.all isSchemeChar ∧ (pre.headD ' ').isAlpha then
        (lowerStr (String.mk pre), post)
      else ("", beforeFrag)
    | none => ("", beforeFrag)
  let (netloc, rest2) :=
    if ['/', '/'].isPrefixOf rest then
      let r := rest.drop 2
      let nl := r.takeWhile (fun c => !(c == '/') && !(c == '?') && !(c == '#'))
      (String.mk nl, r.drop nl.length)
    else ("", rest)
  let (path, query) :=
    match splitFirstList '?' rest2 with
    | some (a, b) => (String.mk a, String.mk b)
    | none => (String.mk rest2, "")
  { scheme := scheme, netloc := netloc, path := path, query := query, fragment := fragment }

/-! ## hashlib.md5 (RFC 1321), needed by the synthetic-name fallback -/

def u32 : Nat := 4294967296

def not32 (x : Nat) : Nat := 4294967295 ^^^ x

def rotl32 (x s : Nat) : Nat :=
  ((x <<< s) % u32) ||| (x >>> (32 - s))

def md5K : List Nat :=
  [0xd76aa478, 0xe8c7b756, 0x242070db, 0xc1bdceee,
   0xf57c0faf, 0x4787c62a, 0xa8304613, 0xfd469501,
   0x698098d8, 0x8b44f7af, 0xffff5bb1, 0x895cd7be,
   0x6b901122, 0xfd987193, 0xa679438e, 0x49b40821,
   0xf61e2562, 0xc040b340, 0x265e5a51, 0xe9b6c7aa,
   0xd62f105d, 0x02441453, 0xd8a1e681, 0xe7d3fbc8,
   0x21e1cde6, 0xc33707d6, 0xf4d50d87, 0x455a14ed,
   0xa9e3e905, 0xfcefa3f8, 0x676f02d9, 0x8d2a4c8a,
   0xfffa3942, 0x8771f681, 0x6d9d6122, 0xfde5380c,
   0xa4beea44, 0x4bdecfa9, 0xf6bb4b60, 0xbebfbc70,
   0x289b7ec6, 0xeaa127fa, 0xd4ef3085, 0x04881d05,
   0xd9d4d039, 0xe6db99e5, 0x1fa27cf8, 0xc4ac5665,
   0xf4292244, 0x432aff97, 0xab9423a7, 0xfc93a039,
   0x655b59c3, 0x8f0ccc92, 0xffeff47d, 0x85845dd1,
   0x6fa87e4f, 0xfe2ce6e0, 0xa3014314, 0x4e0811a1,
   0xf7537e82, 0xbd3af235, 0x2ad7d2bb, 0xeb86d391]

def md5S : List Nat :=
  [7, 12, 17, 22, 7, 12, 17, 22, 7, 12, 17, 22, 7, 12, 17, 22,
   5, 9, 14, 20, 5, 9, 14, 20, 5, 9, 14, 20, 5, 9, 14, 20,
   4, 11, 16, 23, 4, 11, 16, 23, 4, 11, 16, 23, 4, 11, 16, 23,
   6, 10, 15, 21, 6, 10, 15, 21, 6, 10, 15, 21, 6, 10, 15, 21]

def md5F (i b c d : Nat) : Nat :=
  if i < 16 then (b &&& c) ||| (not32 b &&& d)
  else if i < 32 then (d &&& b) ||| (not32 d &&& c)
  else if i < 48 then b ^^^ c ^^^ d
  else c ^^^ (b ||| not32 d)

def md5G (i : Nat) : Nat :=
  if i < 16 then i
  else if i < 32 then (5 * i + 1) % 16
  else if i < 48 then (3 * i + 5) % 16
  else (7 * i) % 16

def md5Step (M : List Nat) (st : Nat × Nat × Nat × Nat) (i : Nat) :
    Nat × Nat × Nat × Nat :=
  let a := st.1
  let b := st.2.1
  let c := st.2.2.1
  let d := st.2.2.2
  let f := (a + md5F i b c d + md5K.getD i 0 + M.getD (md5G i) 0) % u32
  (d, (b + rotl32 f (md5S.getD i 0)) % u32, b, c)

def md5Pad (msg : List Nat) : List Nat :=
  let padLen := (119 - msg.length % 64) % 64
  let bitLen := (8 * msg.length) % 18446744073709551616
  msg ++ [0x80] ++ List.replicate padLen 0
      ++ (List.range 8).map (fun i => (bitLen >>> (8 * i)) &&& 255)

def bytesToWords (blk : List Nat) : List Nat :=
  (List.range 16).map (fun j =>
    blk.getD (4 * j) 0 + 256 * blk.getD (4 * j + 1) 0
      + 65536 * blk.getD (4 * j + 2) 0 + 16777216 * blk.getD (4 * j + 3) 0)

def md5Block (st : Nat × Nat × Nat × Nat) (blk : List Nat) : Nat × Nat × Nat × Nat :=
  let r := (List.range 64).foldl (md5Step (bytesToWords blk)) st
  ((st.1 + r.1) % u32, (st.2.1 + r.2.1) % u32,
   (st.2.2.1 + r.2.2.1) % u32, (st.2.2.2 + r.2.2.2) % u32)

def wordLEBytes (w : Nat) : List Nat :=
  [w % 256, (w >>> 8) % 256, (w >>> 16) % 256, (w >>> 24) % 256]

def md5Bytes (msg : List Nat) : List Nat :=
  let padded := md5Pad msg
  let blocks := (List.range (padded.length / 64)).map
    (fun i => (padded.drop (64 * i)).take 64)
  let st := blocks.foldl md5Block (0x67452301, 0xefcdab89, 0x98badcfe, 0x10325476)
  wordLEBytes st.1 ++ wordLEBytes st.2.1 ++ wordLEBytes st.2.2.1 ++ wordLEBytes st.2.2.2

def hexDigitChar (n : Nat) : Char :=
  if n < 10 then Char.ofNat (48 + n) else Char.ofNat (87 + n)

def hexByte (b : Nat) : List Char :=
  [hexDigitChar (b / 16), hexDigitChar (b % 16)]

/-- UTF-8 encoding of a string (str.encode()); the URLs hashed here are ASCII. -/
def charUtf8 (c : Char) : List Nat :=
  let n := c.toNat
  if n < 128 then [n]
  else if n < 2048 then [192 ||| (n >>> 6), 128 ||| (n &&& 63)]
  else if n < 65536 then
    [224 ||| (n >>> 12), 128 ||| ((n >>> 6) &&& 63), 128 ||| (n &&& 63)]
  else
    [240 ||| (n >>> 18), 128 ||| ((n >>> 12) &&& 63),
     128 ||| ((n >>> 6) &&& 63), 128 ||| (n &&& 63)]

def strBytes (s : String) : List Nat :=
  s.data.foldr (fun c acc => charUtf8 c ++ acc) []

/-- hashlib.md5(s.encode()).hexdigest() -/
def md5hex (s : String) : String :=
  String.mk ((md5Bytes (strBytes s)).foldr (fun b acc => hexByte b ++ acc) [])

/-! ## datetime.now().strftime, as used by the synthetic-name fallback -/

structure PyDateTime where
  year : Nat
  month : Nat
  day : Nat
  hour : Nat
  minute : Nat
  second : Nat
deriving DecidableEq, Repr

def digitChar (n : Nat) : Char := Char.ofNat (48 + n % 10)

def pad2 (n : Nat) : String :=
  String.mk [digitChar ((n / 10) % 10), digitChar (n % 10)]

def pad4 (n : Nat) : String :=
  String.mk [digitChar ((n / 1000) % 10), digitChar ((n / 100) % 10),
             digitChar ((n / 10) % 10), digitChar (n % 10)]

/-- strftime of the percent-codes Y, m, d, H, M, S joined as in
tools.py line 113. -/
def strftimeYmdHMS (t : PyDateTime) : String :=
  pad4 t.year ++ pad2 t.month ++ pad2 t.day ++ "_"
    ++ pad2 t.hour ++ pad2 t.minute ++ pad2 t.second

/-! ## mimetypes (external stdlib table)

mimetypes.guess_extension(mime, strict=False) is Python stdlib data, not
repository code; this table models it for the MIME types that can reach the
resolver in this repository.  Results carry the leading dot, exactly as the
stdlib returns them. -/

def mimetypesGuessExtension (mime : String) : Option String :=
  if mime = "application/zip" then some ".zip"
  else if mime = "application/pdf" then some ".pdf"
  else if mime = "application/gzip" then some ".gz"
  else if mime = "application/x-tar" then some ".tar"
  else if mime = "image/jpeg" then some ".jpg"
  else if mime = "image/png" then some ".png"
  else if mime = "text/plain" then some ".txt"
  else if mime = "application/octet-stream" then some ".bin"
  else none

/-! ## src/tools.py -/

/-- tools.py lines 11-40, parse_content_disposition: split the header on
semicolons, skip the disposition itself, keep only pieces containing an equals
sign, lower-case and strip the name, strip the value and its surrounding
double quotes. -/
def parse_content_disposition (header : String) : List (String × String) :=
  ((pySplit ';' header).drop 1).foldl
    (fun params part =>
      match splitFirstList '=' part.data with
      | none => params
      | some (n, v) =>
        let name := lowerStr (pyStrip (String.mk n))
        let value := pyStrip (String.mk v)
        let value :=
          if strStartsWithCh '"' value && strEndsWithCh '"' value then
            String.mk (value.data.drop 1).dropLast
          else value
        dictSet params name value)
    []

/-- tools.py lines 83-92: the RFC 5987 filename* branch.  value.split on the
apostrophe with maxsplit 2 must produce three pieces (else the ValueError is
swallowed and no name results); the third piece is percent-decoded. -/
def parseFilenameStar (value : String) : Option String :=
  match splitFirstList (Char.ofNat 39) value.data with
  | none => none
  | some (_, rest) =>
    match splitFirstList (Char.ofNat 39) rest with
    | none => none
    | some (_, encoded) => some (unquote (String.mk encoded))

/-- Outcome of the HEAD request in tools.py lines 71-100: the two headers the
code reads.  The whole response being none models check_headers being true but
the request (or raise_for_status) raising, which the code swallows. -/
structure HeadResponse where
  contentDisposition : Option String
  contentType : Option String
deriving DecidableEq, Repr

/-- tools.py lines 67-100: the header tier.  Returns the filename variable and
the content_type variable as they stand after the try block (content_type is
None when headers were not checked or the request failed). -/
def headerTier (check_headers : Bool) (hr : Option HeadResponse) :
    Option String × Option String :=
  if check_headers then
    match hr with
    | none => (none, none)
    | some r =>
      let fn : Option String :=
        match r.contentDisposition with
        | none => none
        | some cd =>
          let params := parse_content_disposition cd
          let f1 : Option String :=
            match dictGet params "filename*" with
            | some v => parseFilenameStar v
            | none => none
          if pyTruthy f1 then f1
          else
            match dictGet params "filename" with
            | some v => some v
            | none => f1
      let ct := some (lowerStr ((pySplit ';' (r.contentType.getD "")).getD 0 ""))
      (fn, ct)
  else (none, none)

def rstripSlash (s : String) : String :=
  String.mk ((s.data.reverse.dropWhile (fun c => c = '/')).reverse)

/-- tools.py lines 102-108: the URL-path tier, used only when the filename so
far is falsy.  Last path component that is non-empty and does not start with a
question mark. -/
def pathTier (parsed : UrlParts) (fn : Option String) : Option String :=
  if pyTruthy fn then fn
  else
    let path := rstripSlash parsed.path
    if path ≠ "" ∧ path ≠ "/" then
      let path_parts := (pySplit '/' path).filter
        (fun p => !p.data.isEmpty && !(['?'].isPrefixOf p.data))
      match path_parts.getLast? with
      | some l => some l
      | none => fn
    else fn

/-- The filename variable after the header and URL-path tiers (url already
stripped). -/
def resolveRawFilename (ch : Bool) (hr : Option HeadResponse) (url : String) :
    Option String :=
  pathTier (urlparse (unquote url)) (headerTier ch hr).1

/-- The guard of tools.py line 111: the synthetic-name branch runs when the
name so far is falsy or is the single slash. -/
def syntheticTaken (ch : Bool) (hr : Option HeadResponse) (url0 : String) : Bool :=
  let url := pyStrip url0
  let fn := resolveRawFilename ch hr url
  !pyTruthy fn || fn == some "/"

/-- tools.py lines 112-115: host (netloc before a colon, or the word download),
timestamp, first eight hex digits of the MD5 of the stripped URL, joined by
underscores. -/
def syntheticName (now : PyDateTime) (url : String) : String :=
  let base0 := (pySplit ':' (urlparse (unquote url)).netloc).getD 0 ""
  let base := if base0 = "" then "download" else base0
  base ++ "_" ++ strftimeYmdHMS now ++ "_" ++ String.mk ((md5hex url).data.take 8)

/-- Characters kept by re.sub of the class outside word, hyphen, underscore,
dot (ASCII in this repository). -/
def isWordKeep (c : Char) : Bool :=
  c.isAlphanum || c == '_' || c == '-' || c == '.'

def subNonWord (s : String) : String :=
  String.mk (s.data.map (fun c => if isWordKeep c then c else '_'))

/-- re.sub of one-or-more underscores by a single underscore. -/
def collapseUnders : List Char → List Char
  | [] => []
  | [c] => [c]
  | a :: b :: rest =>
    if a = '_' ∧ b = '_' then collapseUnders (b :: rest)
    else a :: collapseUnders (b :: rest)

def collapseUnderscoreRuns (s : String) : String :=
  String.mk (collapseUnders s.data)

/-- re.search of the pattern type= followed by one or more non-ampersand
characters, leftmost match, returning the group (tools.py line 140). -/
def searchTypeParamList : List Char → Option (List Char)
  | [] => none
  | x :: xs =>
    if "type=".data.isPrefixOf (x :: xs) then
      let grp := ((x :: xs).drop 5).takeWhile (fun c => !(c == '&'))
      if grp.isEmpty then searchTypeParamList xs else some grp
    else searchTypeParamList xs

def searchTypeParam (q : String) : Option String :=
  (searchTypeParamList q.data).map String.mk

/-- tools.py lines 42-155, extract_filename_from_url.  Effect outcomes are
explicit parameters: gext is the stdlib mimetypes.guess_extension table, now is
datetime.now(), hr is the HEAD response (none when the request raised).  All
branches mirror the source: header tier, URL-path tier, synthetic fallback,
then the independent extension chain and the final sanitized concatenation. -/
def extract_filename_from_url (gext : String → Option String) (now : PyDateTime)
    (url0 : String) (default_extension : Option String) (check_headers : Bool)
    (hr : Option HeadResponse) : String :=
  let url := pyStrip url0
  let parsed := urlparse (unquote url)
  let content_type := (headerTier check_headers hr).2
  let filename : String :=
    if syntheticTaken check_headers hr url0 then syntheticName now url
    else (resolveRawFilename check_headers hr url).getD ""
  let base_name := collapseUnderscoreRuns (rsplitHead '.' (subNonWord filename))
  let ext0 : Option String :=
    if pyContains filename "." then
      let orig_ext := lowerStr (rsplitLast '.' filename)
      if orig_ext.data.length ≤ 4 then some orig_ext else none
    else none
  let ext1 : Option String :=
    if !pyTruthy ext0 && pyTruthy content_type then
      let e := gext (content_type.getD "")
      if pyTruthy e then e.map (fun s => String.mk (s.data.drop 1)) else e
    else ext0
  let ext2 : Option String :=
    if !pyTruthy ext1 then
      if pyContains parsed.query "type=" then
        match searchTypeParam parsed.query with
        | some m =>
          let e := gext (lowerStr m)
          if pyTruthy e then e.map (fun s => String.mk (s.data.drop 1)) else e
        | none => ext1
      else ext1
    else ext1
  let ext3 : Option String :=
    if !pyTruthy ext2 && pyTruthy default_extension then default_extension else ext2
  if pyTruthy ext3 then base_name ++ "." ++ ext3.getD "" else base_name

/-- An httpx streaming response: the headers (httpx lookups are
case-insensitive) and the body chunks as byte lists. -/
structure HttpResponse where
  headers : List (String × String)
  chunks : List (List Nat)
deriving DecidableEq, Repr

/-- httpx Headers lookup: case-insensitive on the header name. -/
def headersLookup (hs : List (String × String)) (k : String) : Option String :=
  (hs.find? (fun p => lowerStr p.1 == lowerStr k)).map (fun p => p.2)

/-- Observable outcome of one completed download loop. -/
structure DownloadRun where
  fileName : String
  total : Int
  fileBytes : List Nat
  progressDeltas : List Nat
deriving DecidableEq, Repr

def exceptIsOk {α β : Type} : Except α β → Bool
  | .ok _ => true
  | .error _ => false

/-- tools.py lines 157-169, download_file: resolve the name when asked for
auto, then read Content-Length through an unconditional subscript (KeyError
when absent), int() it (ValueError possible), then stream chunks to the file
updating progress by the per-chunk byte delta.  There is no return statement
in the source, so the Python value of a successful call is None; the record
returned here is the run's observable effect trace. -/
def download_file (gext : String → Option String) (now : PyDateTime)
    (hr : Option HeadResponse) (url : String) (filename : String)
    (resp : HttpResponse) : Except String DownloadRun :=
  let fname :=
    if filename = "auto" then extract_filename_from_url gext now url none true hr
    else filename
  match headersLookup resp.headers "Content-Length" with
  | none => .error "KeyError: Content-Length"
  | some cl =>
    match pyInt cl with
    | none => .error "ValueError: invalid literal for int"
    | some n =>
      .ok { fileName := fname, total := n,
            fileBytes := resp.chunks.foldl (fun acc c => acc ++ c) [],
            progressDeltas := resp.chunks.map List.length }

/-! ## src/downloader.py -/

/-- downloader.py lines 12-21, Downloader.find_extension.  With truthy headers
it subscripts Content-Type (the httpx headers the in-repo caller passes look
keys up case-insensitively; a missing header raises KeyError) and guesses an
extension; with only a URL the source passes the pair returned by
mimetypes.guess_type straight into guess_extension, which raises
AttributeError inside the stdlib; with neither it falls off the function and
returns None. -/
def find_extension (gext : String → Option String) (url : Option String)
    (rh : Option (List (String × String))) : Except String (Option String) :=
  match rh with
  | some hs =>
    if !hs.isEmpty then
      match headersLookup hs "Content-Type" with
      | none => .error "KeyError: Content-Type"
      | some ct => .ok (some ((gext ct).getD ""))
    else if pyTruthy url then
      .error "AttributeError: guess_extension applied to the guess_type pair"
    else .ok none
  | none =>
    if pyTruthy url then
      .error "AttributeError: guess_extension applied to the guess_type pair"
    else .ok none

/-- downloader.py lines 23-40, Downloader.find_file_name.  The first statement
calls keys() on the headers, so a None headers argument raises AttributeError
before any other check.  Membership in keys() is exact (httpx stores
lower-cased names), while the subscript lookup is case-insensitive.
Otherwise: a Content-Disposition entry is split on
the literal filename= (IndexError when absent from the value) and double
quotes are removed; else, with truthy headers and url, the path's last segment
is used when the path mentions filename, otherwise a fresh uuid4 name; both
get an extension from find_extension; with no branch taken the function
returns None. -/
def find_file_name (gext : String → Option String) (url : Option String)
    (rh : Option (List (String × String))) (freshUuid : String) :
    Except String (Option String) :=
  match rh with
  | none => .error "AttributeError: NoneType has no attribute keys"
  | some hs =>
    if dictHasKey hs "Content-Disposition" then
      let v := (headersLookup hs "Content-Disposition").getD ""
      match splitFirstSub "filename=".data v.data with
      | none => .error "IndexError: list index out of range"
      | some (_, rest) =>
        let piece :=
          match splitFirstSub "filename=".data rest with
          | none => rest
          | some (a, _) => a
        .ok (some (String.mk (piece.filter (fun c => !(c == '"')))))
    else if !hs.isEmpty ∧ pyTruthy url then
      let parsed := urlparse (url.getD "")
      if pyContains parsed.path "filename" then
        let file_name := (pySplit '/' parsed.path).getLastD ""
        match find_extension gext url rh with
        | .error e => .error e
        | .ok extOpt =>
          let ext := extOpt.getD ""
          .ok (some (if ext == "" then file_name ++ ext else file_name ++ "." ++ ext))
      else
        match find_extension gext url rh with
        | .error e => .error e
        | .ok extOpt =>
          let ext := extOpt.getD ""
          .ok (some (if pyContains ext "." then freshUuid ++ ext else freshUuid ++ "." ++ ext))
    else .ok none

/-- Observable outcome of one stream_data generator run: the metadata yield
then the chunk yields with cumulative byte counts. -/
structure StreamRun where
  fileName : Option String
  total : Int
  chunkEvents : List (List Nat × Nat)
deriving DecidableEq, Repr

def cumulativeChunks (chunks : List (List Nat)) : List (List Nat × Nat) :=
  (List.range chunks.length).map
    (fun i => (chunks.getD i [],
               ((chunks.take (i + 1)).map List.length).foldl (fun a b => a + b) 0))

/-- downloader.py lines 42-48, Downloader.stream_data: find_file_name runs
first (its exceptions propagate), then Content-Length is subscripted
unconditionally (KeyError when absent) and parsed by int, then the metadata
and the chunks are yielded. -/
def stream_data (gext : String → Option String) (freshUuid : String)
    (resp : HttpResponse) (url : String) : Except String StreamRun :=
  match find_file_name gext (some url) (some resp.headers) freshUuid with
  | .error e => .error e
  | .ok fn =>
    match headersLookup resp.headers "Content-Length" with
    | none => .error "KeyError: Content-Length"
    | some cl =>
      match pyInt cl with
      | none => .error "ValueError: invalid literal for int"
      | some n => .ok { fileName := fn, total := n, chunkEvents := cumulativeChunks resp.chunks }

/-! ## src/java.py and src/javaWtermux.py -/

/-- Captured output of one subprocess.run with capture_output and text; none
models subprocess.CalledProcessError under check=True. -/
structure ProcOutput where
  stdout : String
  stderr : String
deriving DecidableEq, Repr

/-- java.py lines 110-113: split the quoted token on dots; when the first
piece is the string 1, return the second piece (IndexError, hence None, when
it does not exist), else the first piece. -/
def normalize_version_token (v : String) : Option String :=
  match pySplit '.' v with
  | [] => none
  | p0 :: rest => if p0 = "1" then rest.get? 0 else some p0

/-- java.py lines 107-113 applied to one line: the token between the first and
second double quote (IndexError, hence None, when the line has no quote). -/
def parse_version_line (line : String) : Option String :=
  match (pySplit '"' line).get? 1 with
  | none => none
  | some quoted => normalize_version_token quoted

/-- java.py lines 86-118, JavaController._get_java_version: on a process
failure return None; pick stderr when non-empty else stdout; find the first
line whose lower-casing contains the word version and parse it; any IndexError
is swallowed into None; no matching line is also None. -/
def _get_java_version (probe : Option ProcOutput) : Option String :=
  match probe with
  | none => none
  | some out =>
    let version_output := if out.stderr ≠ "" then out.stderr else out.stdout
    match (pySplit '\n' version_output).find? (fun l => pyContains (lowerStr l) "version") with
    | none => none
    | some line => parse_version_line line

/-- The host as JavaController observes it: platform string, environment
variables, filesystem existence, the version probe per candidate path, and the
stdout of which/where (none models CalledProcessError). -/
structure HostEnv where
  system : String
  java_home : Option String
  pathExists : String → Bool
  probe : String → Option ProcOutput
  whichOutput : Option ProcOutput
  programFiles : Option String
  programFilesX86 : Option String
  programW6432 : Option String

/-- java.py line 54. -/
def javaCmd (h : HostEnv) : String :=
  if h.system = "windows" then "java.exe" else "java"

/-- pathlib Path.parent on the posix-style joined paths used here. -/
def pathParent (p : String) : String :=
  match rsplitOnceList '/' p.data with
  | none => "."
  | some (a, _) => if a = [] then "/" else String.mk a

/-- java.py lines 46-51, the JAVA_HOME tier: the variable must be truthy and
exist on disk, and the probe of its bin/java must parse to a version. -/
def tier1 (h : HostEnv) : Option (String × String) :=
  match h.java_home with
  | none => none
  | some jh =>
    if jh ≠ "" ∧ h.pathExists jh then
      match _get_java_version (h.probe (jh ++ "/bin/java")) with
      | some v => some (v, jh)
      | none => none
    else none

/-- java.py lines 53-72, the executable-search tier: first stdout line of
which/where; a process failure is swallowed; an unparseable version falls
through to the next tier. -/
def tier2 (h : HostEnv) : Option (String × String) :=
  match h.whichOutput with
  | none => none
  | some out =>
    let java_path := (pySplit '\n' (pyStrip out.stdout)).getD 0 ""
    if java_path ≠ "" then
      match _get_java_version (h.probe java_path) with
      | some v => some (v, pathParent (pathParent java_path))
      | none => none
    else none

/-- java.py lines 120-153, _get_common_java_paths. -/
def common_java_paths (h : HostEnv) : List String :=
  if h.system = "windows" then
    [h.programFiles, h.programFilesX86, h.programW6432].foldl
      (fun acc pf =>
        match pf with
        | some p =>
          if p ≠ "" then
            acc ++ [p ++ "/Java", p ++ "/AdoptOpenJDK", p ++ "/OpenJDK", p ++ "/Amazon Corretto"]
          else acc
        | none => acc)
      []
  else if h.system = "darwin" then
    ["/Library/Java/JavaVirtualMachines", "/System/Library/Java/JavaVirtualMachines"]
  else
    ["/usr/lib/jvm", "/usr/java", "/opt/java", "/opt/openjdk"]

def javaBinAt (h : HostEnv) (p : String) : String :=
  p ++ "/bin/" ++ javaCmd h

/-- java.py lines 74-82, the conventional-directory tier: first listed
directory that exists, holds the binary, and probes to a version; every other
candidate is skipped, never fatal. -/
def tier3 (h : HostEnv) : List String → Option (String × String)
  | [] => none
  | p :: rest =>
    if h.pathExists p then
      if h.pathExists (javaBinAt h p) then
        match _get_java_version (h.probe (javaBinAt h p)) with
        | some v => some (v, p)
        | none => tier3 h rest
      else tier3 h rest
    else tier3 h rest

/-- java.py lines 38-84, JavaController.check_existing_java: the three tiers
in priority order; found is false only when all three produced nothing. -/
def check_existing_java (h : HostEnv) : Bool × Option String × Option String :=
  match tier1 h with
  | some (v, p) => (true, some v, some p)
  | none =>
    match tier2 h with
    | some (v, p) => (true, some v, some p)
    | none =>
      match tier3 h (common_java_paths h) with
      | some (v, p) => (true, some v, some p)
      | none => (false, none, none)

/-- java.py lines 13-29, the static download catalog. -/
def JAVA_DOWNLOADS : List (String × List (String × String)) :=
  [("windows",
    [("11", "https://download.java.net/java/GA/jdk11/9/GPL/openjdk-11.0.2_windows-x64_bin.zip"),
     ("17", "https://download.java.net/java/GA/jdk17/0d483333a00540d886896bac774ff48b/35/GPL/openjdk-17_windows-x64_bin.zip"),
     ("21", "https://download.java.net/java/GA/jdk21/fd2272bbf8e04c3dbaee13770090416c/35/GPL/openjdk-21_windows-x64_bin.zip")]),
   ("linux",
    [("11", "https://download.java.net/java/GA/jdk11/9/GPL/openjdk-11.0.2_linux-x64_bin.tar.gz"),
     ("17", "https://download.java.net/java/GA/jdk17/0d483333a00540d886896bac774ff48b/35/GPL/openjdk-17_linux-x64_bin.tar.gz"),
     ("21", "https://download.java.net/java/GA/jdk21/fd2272bbf8e04c3dbaee13770090416c/35/GPL/openjdk-21_linux-x64_bin.tar.gz")]),
   ("darwin",
    [("11", "https://download.java.net/java/GA/jdk11/9/GPL/openjdk-11.0.2_osx-x64_bin.tar.gz"),
     ("17", "https://download.java.net/java/GA/jdk17/0d483333a00540d886896bac774ff48b/35/GPL/openjdk-17_macos-x64_bin.tar.gz"),
     ("21", "https://download.java.net/java/GA/jdk21/fd2272bbf8e04c3dbaee13770090416c/35/GPL/openjdk-21_macos-x64_bin.tar.gz")])]

/-- The side effects a controller run performs, in order. -/
inductive Effect where
  | mkdirDownloads : Effect
  | mkdirInstall : Effect
  | downloadFile (url path : String) : Effect
  | setCurrentPath (path : String) : Effect
  | extractZip (archive : String) : Effect
  | extractTarGz (archive : String) : Effect
  | setx (var value : String) : Effect
  | appendProfile (file text : String) : Effect
  | touchProfile (file : String) : Effect
  | osEnvSet (var value : String) : Effect
deriving DecidableEq, Repr

/-- The two lines java.py lines 266-267 (and javaWtermux.py lines 64-65)
append to the profile file, written as one text. -/
def exportText (jdk_dir : String) : String :=
  "\nexport JAVA_HOME=\"" ++ jdk_dir ++ "\"\n" ++ "export PATH=\"$JAVA_HOME/bin:$PATH\"\n"

/-- java.py line 263: .zshrc when the SHELL value mentions zsh, else .bashrc,
under the home directory. -/
def profileFileFor (home shell : String) : String :=
  home ++ "/" ++ (if pyContains shell "zsh" then ".zshrc" else ".bashrc")

/-- java.py lines 251-267, JavaController._set_environment_variables: next()
on the jdk-prefixed children of the installation root raises StopIteration
(whose str() is empty) when there is no match, and silently takes the first
match otherwise; then either two setx calls (Windows) or one profile-file
append.  The current process environment is never written in this variant. -/
def set_environment_variables (system shell home : String)
    (jdkMatches : List String) : Except String (List Effect) :=
  match jdkMatches with
  | [] => .error ""
  | jdk_dir :: _ =>
    if system = "windows" then
      .ok [Effect.setx "JAVA_HOME" jdk_dir, Effect.setx "PATH" "%PATH%;%JAVA_HOME%\\bin"]
    else
      .ok [Effect.appendProfile (profileFileFor home shell) (exportText jdk_dir)]

/-- javaWtermux.py lines 51-76, the Termux variant of
_set_environment_variables: same next() on jdk-prefixed children, then touch
and append .profile and, additionally, write JAVA_HOME and PATH into the
current process environment (os.environ).  The non-termux branches of this
variant are pass statements. -/
def set_environment_variables_termux (system home oldPath : String)
    (jdkMatches : List String) : Except String (List Effect) :=
  match jdkMatches with
  | [] => .error ""
  | jdk_dir :: _ =>
    if system = "termux" then
      .ok [Effect.touchProfile (home ++ "/" ++ ".profile"),
           Effect.appendProfile (home ++ "/" ++ ".profile") (exportText jdk_dir),
           Effect.osEnvSet "JAVA_HOME" jdk_dir,
           Effect.osEnvSet "PATH" (jdk_dir ++ "/bin:" ++ oldPath)]
    else .ok []

def isOsEnvSet : Effect → Bool
  | .osEnvSet _ _ => true
  | _ => false

/-- True when a configuration run succeeded and wrote the in-process
environment at least once. -/
def hasEnvUpdate : Except String (List Effect) → Bool
  | .ok acts => acts.any isOsEnvSet
  | .error _ => false

/-- pathlib Path.suffix of the posix-style paths used here: the part of the
last component after its last dot, kept only when that dot is neither leading
nor trailing. -/
def pathSuffix (p : String) : String :=
  let name := (pySplit '/' p).getLastD ""
  match rsplitOnceList '.' name.data with
  | none => ""
  | some (a, b) => if a = [] ∨ b = [] then "" else "." ++ String.mk b

/-- One JavaController instance together with the filesystem and subprocess
outcomes its methods observe: the host (for check_existing_java), the home
directory, existence of paths, the SHELL variable, the children the
installation root holds after extraction (in glob order), whether extraction
itself raised, the java -version verification outcome, and the
current_java_path attribute. -/
structure JavaCtrlCtx where
  host : HostEnv
  home : String
  shell : String
  fsExists : String → Bool
  installChildren : List String
  extractFails : Option String
  verifyOk : Bool
  currentJavaPath : Option String

/-- java.py line 254: installation_dir.glob of the pattern jdk followed by
anything — the children whose names start with jdk, as full paths. -/
def globJdk (ctx : JavaCtrlCtx) : List String :=
  (ctx.installChildren.filter (fun n => ['j', 'd', 'k'].isPrefixOf n.data)).map
    (fun n => ctx.home ++ "/java/" ++ n)

/-- java.py lines 166-171 and 207-211: the message of the skip branch. -/
def alreadyMsg (det : Bool × Option String × Option String) (verb : String) : String :=
  "Java " ++ pyStr det.2.1 ++ " is already installed at " ++ pyStr det.2.2
    ++ ". Use force=True to " ++ verb ++ " anyway."

/-- java.py lines 155-195, JavaController.download_java: skip (returning
False) when not forced and detection finds Java; KeyError on an unknown
platform key becomes the wrapped error message; unknown version is reported;
otherwise mkdir, then — when the archive is not already cached — the download
runs, whose None return (tools.download_file has no return statement) makes
the method report failure; with a cached archive the method records the path
and succeeds. -/
def download_java (ctx : JavaCtrlCtx) (version : String) (force : Bool) :
    Bool × String × List Effect :=
  let det := check_existing_java ctx.host
  if !force && det.1 then (false, alreadyMsg det "download", [])
  else
    match dictGet JAVA_DOWNLOADS ctx.host.system with
    | none => (false, "Error downloading Java: " ++ pySQuote ++ ctx.host.system ++ pySQuote, [])
    | some tbl =>
      match dictGet tbl version with
      | none => (false, "Unsupported Java version: " ++ version, [])
      | some download_url =>
        let filename := (pySplit '/' download_url).getLastD ""
        let download_path := ctx.home ++ "/Downloads/java/" ++ filename
        if !ctx.fsExists download_path then
          (false, "Failed to download Java " ++ version,
           [Effect.mkdirDownloads, Effect.downloadFile download_url download_path])
        else
          (true, "Successfully downloaded Java " ++ version,
           [Effect.mkdirDownloads, Effect.setCurrentPath download_path])

/-- java.py lines 228-234 after a successful extraction: configure the
environment (StopIteration from the empty glob is swallowed by the
except-block into the wrapped message), then verify. -/
def install_after_extract (ctx : JavaCtrlCtx) (acts : List Effect) :
    Bool × String × List Effect :=
  match set_environment_variables ctx.host.system ctx.shell ctx.home (globJdk ctx) with
  | .error e => (false, "Error installing Java: " ++ e, acts)
  | .ok envActs =>
    if ctx.verifyOk then (true, "Java installed successfully", acts ++ envActs)
    else (false, "Java installation verification failed", acts ++ envActs)

/-- java.py lines 197-237, JavaController.install_java: skip (returning False)
when not forced and detection finds Java; no recorded download is an error;
otherwise mkdir, dispatch on the path suffix (.zip, .gz, else unsupported),
propagate an extraction exception as the wrapped message, then configure and
verify. -/
def install_java (ctx : JavaCtrlCtx) (force : Bool) : Bool × String × List Effect :=
  let det := check_existing_java ctx.host
  if !force && det.1 then (false, alreadyMsg det "install", [])
  else
    match ctx.currentJavaPath with
    | none => (false, "No Java download found. Please download Java first.", [])
    | some p =>
      if !ctx.fsExists p then (false, "No Java download found. Please download Java first.", [])
      else
        let sfx := pathSuffix p
        if sfx = ".zip" then
          match ctx.extractFails with
          | some e => (false, "Error installing Java: " ++ e, [Effect.mkdirInstall, Effect.extractZip p])
          | none => install_after_extract ctx [Effect.mkdirInstall, Effect.extractZip p]
        else if sfx = ".gz" then
          match ctx.extractFails with
          | some e => (false, "Error installing Java: " ++ e, [Effect.mkdirInstall, Effect.extractTarGz p])
          | none => install_after_extract ctx [Effect.mkdirInstall, Effect.extractTarGz p]
        else (false, "Unsupported archive format: " ++ sfx, [Effect.mkdirInstall])

/-! ## Concrete fixtures used by the counterexamples and witnesses -/

/-- A linux host with nothing installed: no JAVA_HOME, which fails, no
conventional directory exists. -/
def hostEmptyLinux : HostEnv :=
  { system := "linux", java_home := none, pathExists := fun _ => false,
    probe := fun _ => none, whichOutput := none,
    programFiles := none, programFilesX86 := none, programW6432 := none }

/-- A linux host where JAVA_HOME points at an installed JDK 17. -/
def hostWithJava : HostEnv :=
  { system := "linux", java_home := some "/usr/lib/jvm/java-17",
    pathExists := fun _ => true,
    probe := fun _ => some { stdout := "", stderr := "openjdk version \"17.0.1\" 2021-10-19" },
    whichOutput := none, programFiles := none, programFilesX86 := none, programW6432 := none }

/-- A controller on the empty host whose extraction produced the two
top-level directories jdk-17.0.2 and jdk-21. -/
def ctxTwoJdk : JavaCtrlCtx :=
  { host := hostEmptyLinux, home := "/root", shell := "/bin/bash",
    fsExists := fun _ => true,
    installChildren := ["jdk-17.0.2", "jdk-21"],
    extractFails := none, verifyOk := true,
    currentJavaPath := some "/root/Downloads/java/openjdk-17_linux-x64_bin.tar.gz" }

/-- A controller on the host that already has Java. -/
def ctxFound : JavaCtrlCtx :=
  { host := hostWithJava, home := "/root", shell := "/bin/bash",
    fsExists := fun _ => true, installChildren := [],
    extractFails := none, verifyOk := true, currentJavaPath := none }

/-- A controller on the empty host whose extraction produced no jdk-prefixed
directory, with everything else parameterized. -/
def ctxNoJdk (home shell : String) (verify : Bool) : JavaCtrlCtx :=
  { host := hostEmptyLinux, home := home, shell := shell,
    fsExists := fun _ => true, installChildren := [],
    extractFails := none, verifyOk := verify,
    currentJavaPath := some "/root/Downloads/java/openjdk-17_linux-x64_bin.tar.gz" }

/-- A response whose headers declare no content length. -/
def respNoLength : HttpResponse :=
  { headers := [("content-type", "application/zip")], chunks := [[104, 105]] }

/-- Another response without a content length, used to instantiate the general
statement. -/
def respNoLength2 : HttpResponse :=
  { headers := [("x-test", "1")], chunks := [[1, 2, 3]] }

/-! ## Helper lemmas about the split primitive -/

theorem splitCharList_ne_nil (c : Char) (l : List Char) : splitCharList c l ≠ [] := by
  cases l with
  | nil => simp [splitCharList]
  | cons x xs =>
    simp only [splitCharList]
    split
    · simp
    · split <;> simp

theorem splitCharList_sep_cons (c : Char) (t : List Char) :
    splitCharList c (c :: t) = [] :: splitCharList c t := by
  simp [splitCharList]

theorem splitCharList_cons_of_ne (c x : Char) (t : List Char) (h : x ≠ c) :
    splitCharList c (x :: t) =
      (x :: (splitCharList c t).headD []) :: (splitCharList c t).tail := by
  simp only [splitCharList, if_neg h]
  cases hs : splitCharList c t with
  | nil => exact absurd hs (splitCharList_ne_nil c t)
  | cons a b => simp

theorem splitCharList_headD_eq_nil (c : Char) (l : List Char) :
    (splitCharList c l).headD [] = [] ↔ l = [] ∨ l.head? = some c := by
  cases l with
  | nil => simp [splitCharList]
  | cons x xs =>
    by_cases hx : x = c
    · subst hx
      simp [splitCharList_sep_cons]
    · rw [splitCharList_cons_of_ne c x xs hx]
      simp [hx]

/-! ## The claims -/

/-- C10: Downloader.find_file_name called with response_headers equal to None
raises (the AttributeError of None.keys()) instead of returning a file name,
for every url argument, before any None check — the Optional annotation
notwithstanding. -/
theorem claim_C10 (gext : String → Option String) (url : Option String) (freshUuid : String) :
    find_file_name gext url none freshUuid
      = Except.error "AttributeError: NoneType has no attribute keys" := rfl

/-- C9: when the response headers carry Content-Disposition attachment with
the plain quoted parameter filename set to report.pdf and no extended
filename* parameter, artifact-name resolution returns exactly report.pdf —
quotes stripped, base name and three-letter extension untouched by
sanitization — for every url, declared content type, default extension, clock
value and mimetypes table. -/
theorem claim_C9 (gext : String → Option String) (t : PyDateTime) (url : String)
    (ct : Option String) (de : Option String) :
    extract_filename_from_url gext t url de true
      (some { contentDisposition := some "attachment; filename=\"report.pdf\"", contentType := ct })
      = "report.pdf" := rfl

/-- C3 counterexample: on the URL https with host x.test and path
/files/image and query download equal true, with header checking disabled,
resolution does not reach the synthetic-name branch — the URL-path tier
already yields the name image — so the claim that this input falls through to
the synthetic branch is false. -/
theorem claim_C3_counterexample :
    syntheticTaken false none "https://x.test/files/image?download=true" = false
  ∧ extract_filename_from_url mimetypesGuessExtension ⟨2026, 1, 1, 0, 0, 0⟩
      "https://x.test/files/image?download=true" none false none = "image" :=
  ⟨rfl, rfl⟩

/-- C3 amended: for that URL with no usable headers (header checking disabled,
or the HEAD request failing, or a response carrying neither header),
resolution takes the URL-path branch, returns the name image, and never
raises; the synthetic branch is not reached. -/
theorem claim_C3_amended (gext : String → Option String) (t : PyDateTime) (ch : Bool) :
    extract_filename_from_url gext t "https://x.test/files/image?download=true" none ch none = "image"
  ∧ extract_filename_from_url gext t "https://x.test/files/image?download=true" none true
      (some { contentDisposition := none, contentType := none }) = "image"
  ∧ syntheticTaken ch none "https://x.test/files/image?download=true" = false := by
  cases ch <;> exact ⟨rfl, rfl, rfl⟩

/-- C5 counterexample: a successful environment-configuration run of the main
controller (java.py) on linux performs only the profile-file append; it never
writes the current process environment, falsifying the claim that every
successful configuration updates the in-memory environment. -/
theorem claim_C5_counterexample :
    set_environment_variables "linux" "/bin/bash" "/root" ["/root/java/jdk-17.0.2"]
      = Except.ok [Effect.appendProfile "/root/.bashrc" (exportText "/root/java/jdk-17.0.2")]
  ∧ hasEnvUpdate (set_environment_variables "linux" "/bin/bash" "/root" ["/root/java/jdk-17.0.2"]) = false :=
  ⟨rfl, rfl⟩

/-- C5 amended: only the Termux variant (javaWtermux.py) updates the current
process environment — writing JAVA_HOME and prepending the bin directory to
PATH — besides touching and appending its profile file; the main controller's
configurator (java.py) performs the durable persistence only (setx calls or a
profile append) and never updates the in-memory environment. -/
theorem claim_C5_amended (home oldPath jdk : String) (rest : List String) (sys shell : String) :
    set_environment_variables_termux "termux" home oldPath (jdk :: rest)
      = Except.ok [Effect.touchProfile (home ++ "/" ++ ".profile"),
                   Effect.appendProfile (home ++ "/" ++ ".profile") (exportText jdk),
                   Effect.osEnvSet "JAVA_HOME" jdk,
                   Effect.osEnvSet "PATH" (jdk ++ "/bin:" ++ oldPath)]
  ∧ hasEnvUpdate (set_environment_variables sys shell home (jdk :: rest)) = false := by
  refine ⟨rfl, ?_⟩
  by_cases hs : sys = "windows"
  · simp [set_environment_variables, hs, hasEnvUpdate, isOsEnvSet]
  · simp [set_environment_variables, hs, hasEnvUpdate, isOsEnvSet]

/-- C4 counterexample: a streaming download whose response carries no
Content-Length header fails with the KeyError of the unconditional header
subscript instead of proceeding with an unknown total, falsifying the claim
that such downloads complete with bytes-only progress. -/
theorem claim_C4_counterexample :
    download_file mimetypesGuessExtension ⟨2026, 1, 1, 0, 0, 0⟩ none
      "https://x.test/a.zip" "a.zip" respNoLength
      = Except.error "KeyError: Content-Length" := rfl

/-- C4 amended: whenever the response declares no content length, both
tools.download_file and Downloader.stream_data fail — the former with the
KeyError of the Content-Length subscript, the latter never yielding a
successful run — rather than degrading to bytes-only progress. -/
theorem claim_C4_amended (gext : String → Option String) (now : PyDateTime)
    (hr : Option HeadResponse) (url filename freshUuid : String) (resp : HttpResponse)
    (h : headersLookup resp.headers "Content-Length" = none) :
    download_file gext now hr url filename resp = Except.error "KeyError: Content-Length"
  ∧ exceptIsOk (stream_data gext freshUuid resp url) = false := by
  constructor
  · simp only [download_file, h]
  · cases hf : find_file_name gext (some url) (some resp.headers) freshUuid with
    | error e => simp [stream_data, hf, exceptIsOk]
    | ok fn => simp [stream_data, hf, h, exceptIsOk]

/-- C4 witness: the amended statement applied to a concrete response without a
content length. -/
theorem claim_C4_witness :
    headersLookup respNoLength2.headers "Content-Length" = none
  ∧ (download_file mimetypesGuessExtension ⟨2026, 1, 1, 0, 0, 0⟩ none
       "https://x.test/b.bin" "b.bin" respNoLength2
       = Except.error "KeyError: Content-Length"
     ∧ exceptIsOk (stream_data mimetypesGuessExtension "uuid" respNoLength2
         "https://x.test/b.bin") = false) :=
  ⟨rfl, claim_C4_amended _ _ _ _ _ _ _ rfl⟩

/-- C6 counterexample: two runs of artifact-name resolution on the same URL
and the same (absent) headers, one second apart, disagree on the synthetic
branch, falsifying unconditional determinism. -/
theorem claim_C6_counterexample :
    extract_filename_from_url mimetypesGuessExtension ⟨2026, 1, 1, 12, 0, 0⟩
      "https://xtest?d=1" none false none
  ≠ extract_filename_from_url mimetypesGuessExtension ⟨2026, 1, 1, 12, 0, 1⟩
      "https://xtest?d=1" none false none := by decide

/-- C6 amended: artifact-name resolution is deterministic for a fixed URL and
fixed header outcome whenever the synthetic-fallback branch is not taken (the
header or URL-path tier produced the name); on the synthetic branch the name
embeds the current timestamp, so only runs within the same second agree. -/
theorem claim_C6_amended (gext : String → Option String) (t1 t2 : PyDateTime)
    (url : String) (de : Option String) (ch : Bool) (hr : Option HeadResponse)
    (h : syntheticTaken ch hr url = false) :
    extract_filename_from_url gext t1 url de ch hr
      = extract_filename_from_url gext t2 url de ch hr := by
  simp [extract_filename_from_url, h]

/-- C6 witness: the amended determinism applied to a URL resolved through the
URL-path tier, at two clock values far apart. -/
theorem claim_C6_witness :
    syntheticTaken false none "https://x.test/files/a.zip" = false
  ∧ extract_filename_from_url mimetypesGuessExtension ⟨2026, 1, 2, 3, 4, 5⟩
      "https://x.test/files/a.zip" none false none
    = extract_filename_from_url mimetypesGuessExtension ⟨2027, 6, 7, 8, 9, 10⟩
      "https://x.test/files/a.zip" none false none :=
  ⟨rfl, claim_C6_amended _ _ _ _ _ _ _ rfl⟩

/-- C2 counterexample: with an existing Java found by detection and no force
flag, both download_java and install_java do skip all work (no effect is
performed) but return a False success flag, falsifying the claim that the
skip is a success outcome. -/
theorem claim_C2_counterexample :
    (download_java ctxFound "17" false).1 = false
  ∧ (download_java ctxFound "17" false).2.2 = []
  ∧ (install_java ctxFound false).1 = false
  ∧ (install_java ctxFound false).2.2 = [] :=
  ⟨rfl, rfl, rfl, rfl⟩

/-- C2 amended: whenever detection finds an existing Java and force is not
set, download_java and install_java perform no download and no mutation and
report the already-installed message — but as a failure outcome (success flag
False), not a success. -/
theorem claim_C2_amended (ctx : JavaCtrlCtx) (version : String)
    (hfound : (check_existing_java ctx.host).1 = true) :
    download_java ctx version false
      = (false, alreadyMsg (check_existing_java ctx.host) "download", [])
  ∧ install_java ctx false
      = (false, alreadyMsg (check_existing_java ctx.host) "install", []) := by
  constructor
  · simp [download_java, hfound]
  · simp [install_java, hfound]

/-- C2 witness: the amended statement applied to a host where JAVA_HOME holds
an installed JDK 17. -/
theorem claim_C2_witness :
    (check_existing_java ctxFound.host).1 = true
  ∧ (download_java ctxFound "17" false
       = (false, alreadyMsg (check_existing_java ctxFound.host) "download", [])
     ∧ install_java ctxFound false
       = (false, alreadyMsg (check_existing_java ctxFound.host) "install", [])) :=
  ⟨rfl, claim_C2_amended ctxFound "17" rfl⟩

/-- C1 counterexample: after an extraction that produced two top-level
directories matching the jdk naming convention, install_java succeeds by
silently configuring the first match — there is no ambiguous-installation
error — falsifying the claim. -/
theorem claim_C1_counterexample :
    (globJdk ctxTwoJdk).length = 2
  ∧ (install_java ctxTwoJdk false).1 = true
  ∧ (install_java ctxTwoJdk false).2.1 = "Java installed successfully" :=
  ⟨rfl, rfl, rfl⟩

/-- C1 amended: with zero matching directories the installer fails, but with
the generic wrapped StopIteration message (whose str() is empty), not a
not-found message; with two or more matching directories it does not fail
with an ambiguous-installation error but silently configures the first match
in glob order, on Windows via setx and on other systems via the profile
append. -/
theorem claim_C1_amended (home shell sys sh d1 d2 : String) (rest : List String) (verify : Bool) :
    install_java (ctxNoJdk home shell verify) false
      = (false, "Error installing Java: ",
         [Effect.mkdirInstall,
          Effect.extractTarGz "/root/Downloads/java/openjdk-17_linux-x64_bin.tar.gz"])
  ∧ set_environment_variables sys sh home [] = Except.error ""
  ∧ set_environment_variables "windows" sh home (d1 :: d2 :: rest)
      = Except.ok [Effect.setx "JAVA_HOME" d1, Effect.setx "PATH" "%PATH%;%JAVA_HOME%\\bin"]
  ∧ set_environment_variables "linux" "/bin/bash" home (d1 :: d2 :: rest)
      = Except.ok [Effect.appendProfile (profileFileFor home "/bin/bash") (exportText d1)] :=
  ⟨rfl, rfl, rfl, rfl⟩

/-- C7 counterexample: a probe output whose quoted version token is the bare
string 1 does not begin with a 1-then-dot prefix, so the claim demands its
first dot-component (the string 1 itself) back; the parser instead hits the
IndexError branch (parts has no second element) and reports None. -/
theorem claim_C7_counterexample :
    _get_java_version (some { stdout := "", stderr := "java version \"1\" 2020-03-17" }) = none
  ∧ (['1', '.'].isPrefixOf "1".data) = false
  ∧ (pySplit '.' "1").get? 0 = some "1" := by decide

/-- C7 amended: for every quoted version token other than the bare string 1,
the parser returns the second dot-component when the token begins with 1
followed by a dot (and such a second component always exists), and the first
dot-component otherwise. -/
theorem claim_C7_amended (v : String) (hv : v ≠ "1") :
    (['1', '.'].isPrefixOf v.data = true →
        normalize_version_token v = (pySplit '.' v).get? 1 ∧ 2 ≤ (pySplit '.' v).length)
  ∧ (['1', '.'].isPrefixOf v.data = false →
        normalize_version_token v = (pySplit '.' v).get? 0) := by
  constructor
  · intro hp
    obtain ⟨t, ht⟩ : ∃ t, v.data = '1' :: '.' :: t := by
      cases hd : v.data with
      | nil => rw [hd] at hp; simp [List.isPrefixOf] at hp
      | cons a l1 =>
        cases l1 with
        | nil => rw [hd] at hp; simp [List.isPrefixOf] at hp
        | cons b t =>
          rw [hd] at hp
          simp [List.isPrefixOf] at hp
          exact ⟨t, by rw [← hp.1, ← hp.2]⟩
    have hsplit : splitCharList '.' v.data = ['1'] :: splitCharList '.' t := by
      rw [ht, splitCharList_cons_of_ne '.' '1' ('.' :: t) (by decide),
          splitCharList_sep_cons]
      simp
    have hps : pySplit '.' v = "1" :: (splitCharList '.' t).map String.mk := by
      unfold pySplit
      rw [hsplit, List.map_cons]
    constructor
    · simp [normalize_version_token, hps]
    · have hlen : 0 < (splitCharList '.' t).length :=
        List.length_pos.mpr (splitCharList_ne_nil '.' t)
      rw [hps]
      simp only [List.length_cons, List.length_map]
      omega
  · intro hp
    cases hsp : pySplit '.' v with
    | nil =>
      exact absurd (List.map_eq_nil_iff.mp hsp) (splitCharList_ne_nil '.' v.data)
    | cons p0 rest =>
      have hp0 : p0 ≠ "1" := by
        intro he
        cases hsl : splitCharList '.' v.data with
        | nil => exact splitCharList_ne_nil '.' v.data hsl
        | cons l0 ls =>
          have hmk : String.mk l0 = p0 := by
            have := hsp
            rw [pySplit, hsl, List.map_cons] at this
            exact (List.cons.injEq _ _ _ _).mp this |>.1
          have hl0 : l0 = ['1'] := by
            have : (String.mk l0).data = ("1" : String).data := by rw [hmk, he]
            exact this
          cases hd : v.data with
          | nil =>
            rw [hd] at hsl
            simp [splitCharList] at hsl
            rw [hsl.1] at hl0
            exact absurd hl0 (by decide)
          | cons x xs =>
            by_cases hx : x = '.'
            · subst hx
              rw [hd, splitCharList_sep_cons] at hsl
              have : ([] : List Char) = l0 := (List.cons.injEq _ _ _ _).mp hsl |>.1
              rw [← this] at hl0
              exact absurd hl0 (by decide)
            · rw [hd, splitCharList_cons_of_ne '.' x xs hx] at hsl
              have hcons : x :: (splitCharList '.' xs).headD [] = l0 :=
                (List.cons.injEq _ _ _ _).mp hsl |>.1
              rw [hl0] at hcons
              have hx1 : x = '1' ∧ (splitCharList '.' xs).headD [] = [] := by
                have := (List.cons.injEq _ _ _ _).mp hcons
                exact ⟨this.1, this.2⟩
              rcases (splitCharList_headD_eq_nil '.' xs).mp hx1.2 with hxe | hxh
              · apply hv
                cases v with
                | mk d =>
                  have : d = ['1'] := by
                    have hd2 := hd
                    simp only at hd2
                    rw [hd2, hx1.1, hxe]
                  rw [this]
              · cases xs with
                | nil => simp at hxh
                | cons y ys =>
                  have hy : y = '.' := by
                    simpa using hxh
                  rw [hd, hx1.1, hy] at hp
                  simp [List.isPrefixOf] at hp
      simp [normalize_version_token, hsp, hp0]

/-- C7 witness: the amended statement applied to the modern token 17.0.1. -/
theorem claim_C7_witness :
    ("17.0.1" : String) ≠ "1"
  ∧ ((['1', '.'].isPrefixOf "17.0.1".data = true →
        normalize_version_token "17.0.1" = (pySplit '.' "17.0.1").get? 1
          ∧ 2 ≤ (pySplit '.' "17.0.1").length)
     ∧ (['1', '.'].isPrefixOf "17.0.1".data = false →
        normalize_version_token "17.0.1" = (pySplit '.' "17.0.1").get? 0)) :=
  ⟨by decide, claim_C7_amended "17.0.1" (by decide)⟩

/-- C8: a candidate in the conventional-directory tier whose probe fails or
whose output does not parse is skipped — detection moves on to the remaining
candidates without raising — and check_existing_java reports found equal to
false exactly when the JAVA_HOME tier, the executable-search tier, and every
conventional-directory candidate all produced nothing. -/
theorem claim_C8 (h : HostEnv) (p : String) (rest : List String)
    (hfail : _get_java_version (h.probe (javaBinAt h p)) = none) :
    tier3 h (p :: rest) = tier3 h rest
  ∧ ((check_existing_java h).1 = false ↔
       (tier1 h = none ∧ tier2 h = none ∧ tier3 h (common_java_paths h) = none)) := by
  constructor
  · cases he1 : h.pathExists p with
    | false => simp [tier3, he1]
    | true =>
      cases he2 : h.pathExists (javaBinAt h p) with
      | false => simp [tier3, he1, he2]
      | true => simp [tier3, he1, he2, hfail]
  · cases e1 : tier1 h with
    | some vp =>
      obtain ⟨v, pp⟩ := vp
      simp [check_existing_java, e1]
    | none =>
      cases e2 : tier2 h with
      | some vp =>
        obtain ⟨v, pp⟩ := vp
        simp [check_existing_java, e1, e2]
      | none =>
        cases e3 : tier3 h (common_java_paths h) with
        | some vp =>
          obtain ⟨v, pp⟩ := vp
          simp [check_existing_java, e1, e2, e3]
        | none => simp [check_existing_java, e1, e2, e3]

/-- C8 witness: the statement applied to the empty linux host and the
candidate /opt/java whose probe fails. -/
theorem claim_C8_witness :
    _get_java_version (hostEmptyLinux.probe (javaBinAt hostEmptyLinux "/opt/java")) = none
  ∧ (tier3 hostEmptyLinux ["/opt/java"] = tier3 hostEmptyLinux []
  ∧ ((check_existing_java hostEmptyLinux).1 = false ↔
       (tier1 hostEmptyLinux = none ∧ tier2 hostEmptyLinux = none
        ∧ tier3 hostEmptyLinux (common_java_paths hostEmptyLinux) = none))) :=
  ⟨rfl, claim_C8 hostEmptyLinux "/opt/java" [] rfl⟩
